import Mathlib

/-!
Verification of the Story_telling backend against its specification.

Python strings are embedded as `List Char`; dictionaries that are only
iterated in insertion order are embedded as association lists; fallible
vendor calls are embedded as `Except` values supplied by the caller.
Every definition mirrors the corresponding function of the repository
(`backend/models/curriculum.py`, `backend/services/quiz_generator.py`,
`backend/services/story_engine.py`, `backend/services/ai_processor.py`,
`backend/services/speech_service.py`, `backend/utils/retry.py`,
`backend/models/schemas.py`).
-/

namespace StoryTelling

/-- Embedded Python string. -/
abbrev Str := List Char

/-- Build an embedded string from a Lean string literal. -/
def S (s : String) : Str := s.data

/-- Python `str.lower()` (ASCII data throughout the repository). -/
def lowerStr (s : Str) : Str := s.map Char.toLower

/-- Python `str.upper()`. -/
def upperStr (s : Str) : Str := s.map Char.toUpper

/-- Python `str.strip()`: drop whitespace at both ends. -/
def stripStr (s : Str) : Str :=
  ((s.dropWhile Char.isWhitespace).reverse.dropWhile Char.isWhitespace).reverse

/-- Python `needle in hay` on strings: contiguous substring test. -/
def inStr (needle : Str) : Str → Bool
  | [] => needle.isEmpty
  | c :: t => needle.isPrefixOf (c :: t) || inStr needle t

/-- Python `str.split(sep)` for a one-character separator (keeps empty parts). -/
def splitOn (sep : Char) : Str → List Str
  | [] => [[]]
  | c :: t =>
    if c == sep then [] :: splitOn sep t
    else
      match splitOn sep t with
      | [] => [[c]]
      | h :: r => (c :: h) :: r

/-- Worker for `splitWS`; `acc` holds the current token reversed. -/
def splitWSAux : Str → Str → List Str
  | [], acc => if acc.isEmpty then [] else [acc.reverse]
  | c :: cs, acc =>
    if c.isWhitespace then
      if acc.isEmpty then splitWSAux cs []
      else acc.reverse :: splitWSAux cs []
    else splitWSAux cs (c :: acc)

/-- Python `str.split()` with no argument: split on whitespace runs,
dropping empty tokens. -/
def splitWS (s : Str) : List Str := splitWSAux s []

/-- Worker for `replaceStr`; the fuel starts at the string length and each
step consumes at least one character. -/
def replaceStrAux (pat rep : Str) : Nat → Str → Str
  | 0, s => s
  | _ + 1, [] => []
  | fuel + 1, c :: t =>
    if (!pat.isEmpty) && pat.isPrefixOf (c :: t) then
      rep ++ replaceStrAux pat rep fuel (t.drop (pat.length - 1))
    else c :: replaceStrAux pat rep fuel t

/-- Python `str.replace(pat, rep)`: replace every non-overlapping
occurrence, scanning left to right. -/
def replaceStr (pat rep s : Str) : Str := replaceStrAux pat rep s.length s

/-- Python `str.replace(a, b)` for single characters (used for `,` → space). -/
def replaceChar (a b : Char) (s : Str) : Str :=
  s.map fun c => if c == a then b else c

/-- Association-list lookup modelling Python `dict.get(k)`. -/
def lookupStr (m : List (Str × Str)) (k : Str) : Option Str :=
  (m.find? fun p => p.1 == k).map Prod.snd

/-- Association-list lookup modelling Python `dict.get(k, d)`. -/
def lookupStrD (m : List (Str × Str)) (k : Str) (d : Str) : Str :=
  (lookupStr m k).getD d

/-! ## Curriculum knowledge base (`backend/models/curriculum.py`) -/

/-- `CurriculumTopic` of `backend/models/curriculum.py`. -/
structure CurriculumTopic where
  id : Str
  name : Str
  subject : Str
  grade_range : Str
  description : Str
  keywords : List Str
  learning_objectives : List Str
  related_topics : List Str
  story_themes : List Str
deriving DecidableEq

/-- Normalisation applied to each input keyword in
`find_matching_topics`: `kw.lower().strip()`. -/
def normalizeKw (kw : Str) : Str := stripStr (lowerStr kw)

/-- Score contribution of one (already normalised) keyword to one topic,
mirroring the inner loop of `find_matching_topics`: +10 for a direct
match, +5 for every topic keyword in a mutual-substring relation with the
keyword, +8 for a name hit, +3 for a description hit. -/
def keywordContrib (topic : CurriculumTopic) (kw : Str) : Nat :=
  let topicKws := topic.keywords.map lowerStr
  (if topicKws.contains kw then 10 else 0)
    + 5 * (topicKws.filter fun tkw => inStr kw tkw || inStr tkw kw).length
    + (if inStr kw (lowerStr topic.name) then 8 else 0)
    + (if inStr kw (lowerStr topic.description) then 3 else 0)

/-- The score `find_matching_topics` accumulates for one topic over the
whole (un-normalised) keyword list. -/
def topicScore (topic : CurriculumTopic) (keywords : List Str) : Nat :=
  ((keywords.map normalizeKw).map (keywordContrib topic)).sum

/-- The per-keyword score the specification text describes: each of the
four criteria contributes at most once per keyword (+5 at most once for a
partial match).  Kept separate from `keywordContrib` to compare the
specification's formula with the code's. -/
def specKeywordContrib (topic : CurriculumTopic) (kw : Str) : Nat :=
  let topicKws := topic.keywords.map lowerStr
  (if topicKws.contains kw then 10 else 0)
    + (if topicKws.any (fun tkw => inStr kw tkw || inStr tkw kw) then 5 else 0)
    + (if inStr kw (lowerStr topic.name) then 8 else 0)
    + (if inStr kw (lowerStr topic.description) then 3 else 0)

/-- Topic score under the specification's per-keyword formula. -/
def specTopicScore (topic : CurriculumTopic) (keywords : List Str) : Nat :=
  ((keywords.map normalizeKw).map (specKeywordContrib topic)).sum

/-- The positively scored topics, paired with their scores, in the
insertion order of the topic map (`scores` dict of
`find_matching_topics`). -/
def scoredTopics (topics : List CurriculumTopic) (keywords : List Str) :
    List (CurriculumTopic × Nat) :=
  topics.filterMap fun t =>
    if 0 < topicScore t keywords then some (t, topicScore t keywords) else none

/-- Stable insertion step for descending sort on the score component:
an element is placed before the first element whose score is `≤` its own,
so earlier elements win ties, as Python's stable `sorted` does. -/
def insertDesc (x : CurriculumTopic × Nat) :
    List (CurriculumTopic × Nat) → List (CurriculumTopic × Nat)
  | [] => [x]
  | y :: ys => if y.2 ≤ x.2 then x :: y :: ys else y :: insertDesc x ys

/-- Stable descending sort by score, modelling
`sorted(scores.items(), key=lambda x: x[1], reverse=True)`. -/
def sortDesc : List (CurriculumTopic × Nat) → List (CurriculumTopic × Nat)
  | [] => []
  | x :: xs => insertDesc x (sortDesc xs)

/-- `CurriculumKnowledgeBase.find_matching_topics`: score every topic,
keep positive scores, sort descending by score (stably), take the first
`maxResults`, return the topics. -/
def find_matching_topics (topics : List CurriculumTopic)
    (keywords : List Str) (maxResults : Nat) : List CurriculumTopic :=
  ((sortDesc (scoredTopics topics keywords)).take maxResults).map Prod.fst

/-- The `science_photosynthesis` default topic of `_initialize_defaults`. -/
def photosynthesis : CurriculumTopic :=
  { id := S ("science_photosynthesis")
    name := S ("Photosynthesis")
    subject := S ("Science")
    grade_range := S ("3-5")
    description := S ("How plants make food using sunlight")
    keywords := [S ("plant"), S ("sun"), S ("leaf"), S ("green"),
                 S ("tree"), S ("flower"), S ("garden")]
    learning_objectives := [S ("Understand how plants produce food"),
                            S ("Learn about the role of sunlight in plant growth"),
                            S ("Identify parts of a plant")]
    related_topics := [S ("plant_parts"), S ("ecosystems"), S ("food_chain")]
    story_themes := [S ("magical garden"), S ("talking plants"),
                     S ("sun adventure")] }

/-- The `science_water_cycle` default topic of `_initialize_defaults`. -/
def waterCycle : CurriculumTopic :=
  { id := S ("science_water_cycle")
    name := S ("Water Cycle")
    subject := S ("Science")
    grade_range := S ("2-4")
    description := S ("The journey of water through evaporation, condensation, and precipitation")
    keywords := [S ("water"), S ("rain"), S ("cloud"), S ("river"),
                 S ("ocean"), S ("drop"), S ("wet")]
    learning_objectives := [S ("Understand evaporation and condensation"),
                            S ("Learn about precipitation"),
                            S ("Trace water's journey")]
    related_topics := [S ("weather"), S ("states_of_matter"), S ("ecosystems")]
    story_themes := [S ("raindrop journey"), S ("cloud adventures"),
                     S ("river tales")] }

/-! ## Quiz generator (`backend/services/quiz_generator.py`) and the
quiz schemas (`backend/models/schemas.py`) -/

/-- `QuizQuestion` of `backend/models/schemas.py`. -/
structure QuizQuestion where
  question : Str
  options : List Str
  correct_answer : Int
  explanation : Str
deriving DecidableEq

/-- One entry of the decoded `questions` array handed to
`_parse_quiz_response`; a field is `none` when the key is absent. -/
structure RawQuestion where
  question : Option Str
  options : Option (List Str)
  correct_answer : Option Int
  explanation : Option Str
deriving DecidableEq

/-- `QuizResponse` of `backend/models/schemas.py`. -/
structure QuizResponseM where
  questions : List QuizQuestion
  story_id : Str
  difficulty : Str
deriving DecidableEq

/-- `StoryResponse` of `backend/models/schemas.py`. -/
structure StoryResponseM where
  story_id : Str
  title : Str
  content : Str
  summary : Str
  concepts_covered : List Str
  age_group : Str
  word_count : Nat
  quiz : Option QuizResponseM
  audio_available : Bool
deriving DecidableEq

/-- Pydantic validation of one `QuizQuestion`: exactly four options and a
correct-answer index in `[0, 3]`. -/
def quizQuestionValid (q : QuizQuestion) : Bool :=
  decide (q.options.length = 4) && decide (0 ≤ q.correct_answer)
    && decide (q.correct_answer ≤ 3)

/-- Pydantic validation of the `questions` field of `QuizResponse`:
between one and five questions, each itself valid. -/
def quizResponseValid (qs : List QuizQuestion) : Bool :=
  decide (1 ≤ qs.length) && decide (qs.length ≤ 5) && qs.all quizQuestionValid

/-- The options fix-up of `_parse_quiz_response`: pad with
`"Not applicable"` up to four entries, then trim to four. -/
def fixOptions (opts : List Str) : List Str :=
  if opts.length ≠ 4 then
    (opts ++ List.replicate (4 - opts.length) (S ("Not applicable"))).take 4
  else opts

/-- The correct-answer fix-up of `_parse_quiz_response`: indices outside
`[0, 3]` are replaced by `0`. -/
def fixCorrect (i : Int) : Int := if i < 0 ∨ 3 < i then 0 else i

/-- One iteration of the question loop of `_parse_quiz_response`:
entries missing any of the three required keys are skipped. -/
def parseOneQuestion (q : RawQuestion) : Option QuizQuestion :=
  match q.question, q.options, q.correct_answer with
  | some qt, some opts, some ci =>
    some { question := qt
           options := fixOptions opts
           correct_answer := fixCorrect ci
           explanation := q.explanation.getD [] }
  | _, _, _ => none

/-- The fixed generic question substituted when JSON decoding fails. -/
def fallbackQuestion : QuizQuestion :=
  { question := S ("What did you learn from this story?")
    options := [S ("Something new and interesting"), S ("I'm not sure"),
                S ("Nothing new"), S ("I need to read it again")]
    correct_answer := 0
    explanation := S ("Every story teaches us something new!") }

/-- `QuizGenerator._parse_quiz_response`.  The argument is the outcome of
`json.loads` on the cleaned reply: `Except.error` when decoding raised
`JSONDecodeError`, otherwise the decoded `questions` array. -/
def parse_quiz_response (resp : Except Unit (List RawQuestion)) :
    List QuizQuestion :=
  match resp with
  | .error _ => [fallbackQuestion]
  | .ok qs => qs.filterMap parseOneQuestion

/-- `QuizGenerator.DIFFICULTY_MAP`. -/
def DIFFICULTY_MAP : List (Str × Str) :=
  [(S ("5-7"), S ("easy")), (S ("8-10"), S ("medium")),
   (S ("11-13"), S ("hard"))]

/-- `QuizGenerator.generate_quiz`: clamp the requested count to `[1, 5]`,
parse the vendor reply, truncate, and build the `QuizResponse`.  The
result is `none` when pydantic rejects the `QuizResponse` (the request
then fails with `APICallError`). -/
def generate_quiz (story : StoryResponseM) (numQuestions : Int)
    (resp : Except Unit (List RawQuestion)) : Option QuizResponseM :=
  let n := max 1 (min 5 numQuestions)
  let difficulty := lookupStrD DIFFICULTY_MAP story.age_group (S ("medium"))
  let questions := parse_quiz_response resp
  let chosen := questions.take n.toNat
  if quizResponseValid chosen then
    some { questions := chosen, story_id := story.story_id,
           difficulty := difficulty }
  else none

/-! ## Story engine (`backend/services/story_engine.py`) -/

/-- First line matching the title scan of `_parse_story_response`:
a `TITLE:` prefix (case-sensitive) or a markdown `# ` heading. -/
def findTitleLine : List Str → Option Str
  | [] => none
  | line :: rest =>
    if (S ("TITLE:")).isPrefixOf line || (S ("# ")).isPrefixOf (upperStr line)
    then some line
    else findTitleLine rest

/-- The story-bounds scan of `_parse_story_response`: walks the lines,
records `i + 1` after every line containing `STORY:` (case-insensitive),
and stops at the first `SUMMARY:` line seen after a `STORY:` line,
returning `(story_start, story_end)` with `story_end` defaulting to the
number of lines. -/
def storyScanGo : List Str → Nat → Option Nat → Option Nat × Nat
  | [], i, st => (st, i)
  | line :: rest, i, st =>
    if inStr (S ("STORY:")) (upperStr line) then
      storyScanGo rest (i + 1) (some (i + 1))
    else if inStr (S ("SUMMARY:")) (upperStr line) && st.isSome then (st, i)
    else storyScanGo rest (i + 1) st

/-- Index of the first line containing `mark` case-insensitively
(the summary scan of `_parse_story_response`). -/
def findMarkIdx (mark : Str) : List Str → Nat → Option Nat
  | [], _ => none
  | line :: rest, i =>
    if inStr mark (upperStr line) then some i else findMarkIdx mark rest (i + 1)

/-- `StoryEngine._parse_story_response`: returns
`(title, content, summary)`. -/
def parse_story_response (response : Str) : Str × Str × Str :=
  let lines := splitOn '\n' (stripStr response)
  let title :=
    match findTitleLine lines with
    | some line =>
      if (S ("TITLE:")).isPrefixOf line
      then stripStr (replaceStr (S ("TITLE:")) [] line)
      else stripStr (line.drop 2)
    | none => S ("An Amazing Adventure")
  let bounds := storyScanGo lines 0 none
  let content :=
    match bounds.1 with
    | some s =>
      stripStr (List.intercalate (S ("\n")) ((lines.drop s).take (bounds.2 - s)))
    | none => response
  let summary0 :=
    match findMarkIdx (S ("SUMMARY:")) lines 0 with
    | some i => stripStr (List.intercalate (S ("\n")) (lines.drop (i + 1)))
    | none => []
  let summary :=
    if summary0.isEmpty then
      List.intercalate (S (" ")) ((splitWS content).take 50) ++ S ("...")
    else summary0
  (title, content, summary)

/-- `StoryEngine.generate_story` after a successful vendor call: parse the
reply, count the whitespace tokens of the content, and assemble the
`StoryResponse`. -/
def generate_story (storyId : Str) (concepts : List Str) (ageGroup : Str)
    (aiReply : Str) : StoryResponseM :=
  let parsed := parse_story_response aiReply
  { story_id := storyId
    title := parsed.1
    content := parsed.2.1
    summary := parsed.2.2
    concepts_covered := concepts.take 5
    age_group := ageGroup
    word_count := (splitWS parsed.2.1).length
    quiz := none
    audio_available := false }

/-- Pydantic validation of a `StoryResponse` value: the schema constrains
no field value (in particular not `word_count`); only a nested quiz is
validated. -/
def storyResponseValid (r : StoryResponseM) : Bool :=
  match r.quiz with
  | none => true
  | some q => quizResponseValid q.questions

/-! ## AI processor (`backend/services/ai_processor.py`) -/

/-- `ImageAnalysisResult` of `backend/models/schemas.py`; `confidence`
models the float field exactly at the literals the code assigns. -/
structure ImageAnalysisResult where
  detected_objects : List Str
  scene_description : Str
  educational_concepts : List Str
  suggested_topics : List Str
  confidence : Rat
deriving DecidableEq

/-- The keyword split of `process_keywords`:
`[kw.strip() for kw in keywords.replace(",", " ").split()]`. -/
def splitKeywords (keywords : Str) : List Str :=
  (splitWS (replaceChar ',' ' ' keywords)).map stripStr

/-- The fixed fallback of `_interpret_keywords_with_ai` when the vendor
call (or its parsing) raises. -/
def keywordFallback (keywords : Str) : ImageAnalysisResult :=
  { detected_objects := []
    scene_description := S ("Topic: ") ++ keywords
    educational_concepts := [keywords]
    suggested_topics := [S ("General Learning")]
    confidence := (1 : Rat) / 2 }

/-- `AIProcessor.process_keywords`.  `kb` is the topic map of the
curriculum knowledge base in insertion order; `aiOutcome` is the outcome
of `_interpret_keywords_with_ai`'s vendor call (`Except.error` for a
raised exception).  Returns the result together with a flag recording
whether the AI vendor was called. -/
def process_keywords (kb : List CurriculumTopic) (keywords : Str)
    (aiOutcome : Except Unit ImageAnalysisResult) :
    ImageAnalysisResult × Bool :=
  let matching := find_matching_topics kb (splitKeywords keywords) 3
  if matching.isEmpty then
    match aiOutcome with
    | .ok r => (r, true)
    | .error _ => (keywordFallback keywords, true)
  else
    ({ detected_objects := []
       scene_description := S ("Keywords: ") ++ keywords
       educational_concepts :=
         (matching.map fun t => t.learning_objectives.take 2).flatten
       suggested_topics := matching.map fun t => t.name
       confidence := (9 : Rat) / 10 }, false)

/-! ## Retry wrapper (`backend/utils/retry.py`) -/

/-- Worker for `with_retry`: `attempt` is the 1-based attempt number and
the fuel is the number of retries still allowed.  Returns the final
outcome and the number of sleeps (tenacity sleeps once before every
retry, never after the last failure, and with `reraise=True` the last
exception is raised unchanged). -/
def retryAux {E A : Type} (f : Nat → Except E A) :
    Nat → Nat → Except E A × Nat
  | attempt, fuel =>
    match f attempt with
    | .ok a => (.ok a, 0)
    | .error e =>
      match fuel with
      | 0 => (.error e, 0)
      | fuel' + 1 =>
        let r := retryAux f (attempt + 1) fuel'
        (r.1, r.2 + 1)

/-- `with_retry(max_attempts=m)` applied to a function whose attempt
outcomes are given by `f` (both the async and the sync wrapper run this
same loop). -/
def with_retry {E A : Type} (maxAttempts : Nat) (f : Nat → Except E A) :
    Except E A × Nat :=
  retryAux f 1 (maxAttempts - 1)

/-! ## Speech service (`backend/services/speech_service.py`) -/

/-- `SpeechService.VOICE_MAP`. -/
def VOICE_MAP : List (Str × Str) :=
  [(S ("en"), S ("en-US-AriaNeural")),
   (S ("en-US"), S ("en-US-AriaNeural")),
   (S ("en-GB"), S ("en-GB-SoniaNeural")),
   (S ("es"), S ("es-ES-ElviraNeural")),
   (S ("fr"), S ("fr-FR-DeniseNeural")),
   (S ("de"), S ("de-DE-KatjaNeural")),
   (S ("it"), S ("it-IT-ElsaNeural")),
   (S ("pt"), S ("pt-BR-FranciscaNeural")),
   (S ("zh"), S ("zh-CN-XiaoxiaoNeural")),
   (S ("ja"), S ("ja-JP-NanamiNeural")),
   (S ("ko"), S ("ko-KR-SunHiNeural")),
   (S ("hi"), S ("hi-IN-SwaraNeural")),
   (S ("ar"), S ("ar-SA-ZariyahNeural")),
   (S ("ru"), S ("ru-RU-SvetlanaNeural"))]

/-- `SpeechService.CHILD_VOICES`. -/
def CHILD_VOICES : List (Str × Str) :=
  [(S ("en"), S ("en-US-AnaNeural")),
   (S ("es"), S ("es-MX-DaliaNeural")),
   (S ("fr"), S ("fr-FR-EloiseNeural")),
   (S ("de"), S ("de-DE-GiselaNeural"))]

/-- Python truthiness of the optional `voice` argument (`None` and the
empty string are falsy). -/
def voiceGiven (voice : Option Str) : Bool :=
  match voice with
  | none => false
  | some s => !s.isEmpty

/-- Voice selection of `SpeechService.generate_audio`: an explicit voice
wins; otherwise the child-friendly voice when enabled and mapped;
otherwise the general per-language voice or the global default. -/
def select_voice_generate_audio (voice : Option Str) (language : Str)
    (useChildVoice : Bool) (defaultVoice : Str) : Str :=
  if voiceGiven voice then voice.getD []
  else if useChildVoice && (lookupStr CHILD_VOICES language).isSome then
    (lookupStr CHILD_VOICES language).getD []
  else lookupStrD VOICE_MAP language defaultVoice

/-- Voice selection of `SpeechService.generate_audio_stream`:
`voice or VOICE_MAP.get(language, default_voice)`. -/
def select_voice_stream (voice : Option Str) (language : Str)
    (defaultVoice : Str) : Str :=
  if voiceGiven voice then voice.getD []
  else lookupStrD VOICE_MAP language defaultVoice

/-- `SpeechService.cleanup_old_files` over the audio directory, embedded
as the list of `.mp3` files paired with their age
`current_time - st_mtime` in seconds.  Returns the deletion count and
the deleted files in scan order. -/
def cleanup_old_files : List (Str × Int) → Int → Nat × List Str
  | [], _ => (0, [])
  | f :: rest, maxAgeHours =>
    let r := cleanup_old_files rest maxAgeHours
    if f.2 > maxAgeHours * 3600 then (r.1 + 1, f.1 :: r.2) else r

/-- Sample hand-constructed `StoryResponse`: pydantic accepts it although
its `word_count` does not match its `content`. -/
def handMadeStory : StoryResponseM :=
  { story_id := S ("story-1")
    title := S ("A Tale")
    content := S ("a b c")
    summary := S ("short")
    concepts_covered := []
    age_group := S ("8-10")
    word_count := 99
    quiz := none
    audio_available := false }

/-- Sample story used to instantiate quiz-generation theorems. -/
def sampleStory : StoryResponseM :=
  { story_id := S ("story-2")
    title := S ("The Garden")
    content := S ("The garden was green and bright.")
    summary := S ("A garden story.")
    concepts_covered := [S ("plants")]
    age_group := S ("8-10")
    word_count := 6
    quiz := none
    audio_available := false }

/-- Sample decoded vendor question with a complete structure. -/
def sampleRaw : RawQuestion :=
  { question := S ("What color was the garden?")
    options := [S ("Green"), S ("Red"), S ("Blue"), S ("Gray")]
    correct_answer := some 0
    explanation := S ("The garden was green.") }

/-- Attempt outcomes of a function failing twice, then succeeding. -/
def retrySampleF : Nat → Except Nat Nat :=
  fun i => if i = 3 then .ok 7 else .error i

/-! ## Helper lemmas about the stable descending sort -/

theorem perm_insertDesc (x : CurriculumTopic × Nat)
    (l : List (CurriculumTopic × Nat)) :
    List.Perm (insertDesc x l) (x :: l) := by
  induction l with
  | nil => exact List.Perm.refl _
  | cons y ys ih =>
    by_cases h : y.2 ≤ x.2
    · simp [insertDesc, h]
    · simp only [insertDesc, if_neg h]
      exact (ih.cons y).trans (List.Perm.swap x y ys)

theorem perm_sortDesc (l : List (CurriculumTopic × Nat)) :
    List.Perm (sortDesc l) l := by
  induction l with
  | nil => exact List.Perm.refl _
  | cons x xs ih => exact (perm_insertDesc x (sortDesc xs)).trans (ih.cons x)

theorem pairwise_insertDesc (x : CurriculumTopic × Nat)
    (l : List (CurriculumTopic × Nat))
    (h : l.Pairwise fun a b => b.2 ≤ a.2) :
    (insertDesc x l).Pairwise fun a b => b.2 ≤ a.2 := by
  induction l with
  | nil => simp [insertDesc]
  | cons y ys ih =>
    rw [List.pairwise_cons] at h
    by_cases hc : y.2 ≤ x.2
    · simp only [insertDesc, if_pos hc]
      refine List.Pairwise.cons ?_ (List.Pairwise.cons h.1 h.2)
      intro z hz
      rcases List.mem_cons.mp hz with rfl | hz
      · exact hc
      · exact le_trans (h.1 z hz) hc
    · simp only [insertDesc, if_neg hc]
      refine List.Pairwise.cons ?_ (ih h.2)
      intro z hz
      have hz' : z ∈ x :: ys := (perm_insertDesc x ys).mem_iff.mp hz
      rcases List.mem_cons.mp hz' with rfl | hz'
      · exact le_of_lt (lt_of_not_le hc)
      · exact h.1 z hz'

theorem pairwise_sortDesc (l : List (CurriculumTopic × Nat)) :
    (sortDesc l).Pairwise fun a b => b.2 ≤ a.2 := by
  induction l with
  | nil => simp [sortDesc]
  | cons x xs ih => exact pairwise_insertDesc x (sortDesc xs) ih

theorem filter_insertDesc (x : CurriculumTopic × Nat)
    (l : List (CurriculumTopic × Nat)) (s : Nat) :
    (insertDesc x l).filter (fun p => p.2 == s) =
      if x.2 == s then x :: l.filter (fun p => p.2 == s)
      else l.filter (fun p => p.2 == s) := by
  induction l with
  | nil => simp [insertDesc, List.filter_cons]
  | cons y ys ih =>
    by_cases hc : y.2 ≤ x.2
    · simp only [insertDesc, if_pos hc, List.filter_cons]
    · simp only [insertDesc, if_neg hc, List.filter_cons, ih]
      by_cases hx : x.2 = s
      · have hy : (y.2 == s) = false := by
          have : x.2 < y.2 := lt_of_not_le hc
          simp only [beq_eq_false_iff_ne, ne_eq]
          omega
        simp [hx, hy]
      · simp only [beq_iff_eq, if_neg hx]

theorem filter_sortDesc (l : List (CurriculumTopic × Nat)) (s : Nat) :
    (sortDesc l).filter (fun p => p.2 == s) =
      l.filter (fun p => p.2 == s) := by
  induction l with
  | nil => rfl
  | cons x xs ih =>
    simp only [sortDesc, filter_insertDesc, ih, List.filter_cons]

theorem scoredTopics_mem {topics : List CurriculumTopic} {kws : List Str}
    {p : CurriculumTopic × Nat} (h : p ∈ scoredTopics topics kws) :
    p.2 = topicScore p.1 kws ∧ 0 < topicScore p.1 kws := by
  obtain ⟨t, -, hsome⟩ := List.mem_filterMap.mp h
  by_cases ht : 0 < topicScore t kws
  · rw [if_pos ht] at hsome
    cases hsome
    exact ⟨rfl, ht⟩
  · rw [if_neg ht] at hsome
    cases hsome

/-! ## Claim theorems -/

/-- C1, amended.  The score `find_matching_topics` accumulates for a topic
is the sum, over the normalised input keywords, of: +10 if the keyword
equals a topic keyword, +5 for EVERY (keyword, topic-keyword) pair in
which one string contains the other (not +5 once per keyword, as the
claim states), +8 if the keyword occurs in the topic name and +3 if it
occurs in the topic description; and an exact keyword match contributes
at least +10 to the topic's score. -/
theorem topicScore_formula_and_exact_match (topic : CurriculumTopic)
    (kws : List Str) :
    topicScore topic kws
      = ((kws.map normalizeKw).map (fun kw =>
          (if (topic.keywords.map lowerStr).contains kw then 10 else 0)
            + 5 * ((topic.keywords.map lowerStr).filter
                (fun tkw => inStr kw tkw || inStr tkw kw)).length
            + (if inStr kw (lowerStr topic.name) then 8 else 0)
            + (if inStr kw (lowerStr topic.description) then 3 else 0))).sum
    ∧ ∀ kw ∈ kws,
        (topic.keywords.map lowerStr).contains (normalizeKw kw) = true →
        10 ≤ topicScore topic kws := by
  constructor
  · rfl
  · intro kw hkw hmem
    have hcontrib : 10 ≤ keywordContrib topic (normalizeKw kw) := by
      simp only [keywordContrib, hmem, if_pos]
      omega
    have hin : keywordContrib topic (normalizeKw kw) ∈
        (kws.map normalizeKw).map (keywordContrib topic) :=
      List.mem_map_of_mem _ (List.mem_map_of_mem _ hkw)
    exact le_trans hcontrib (List.le_sum_of_mem hin)

/-- C1 witness: the keyword `plant` is an exact keyword of the
Photosynthesis topic, and the topic scores at least 10 for it. -/
theorem topicScore_exact_match_witness :
    10 ≤ topicScore photosynthesis [S ("plant")] :=
  (topicScore_formula_and_exact_match photosynthesis [S ("plant")]).2
    (S ("plant")) (by decide) (by decide)

/-- C1 counterexample: on the Water Cycle default topic and the single
keyword `r`, the claim's per-keyword formula gives 16 while the code's
score is 31, because `r` is a substring of four topic keywords and each
pair earns +5. -/
theorem specScore_ne_codeScore_on_waterCycle :
    specTopicScore waterCycle [S ("r")] = 16
      ∧ topicScore waterCycle [S ("r")] = 31
      ∧ specTopicScore waterCycle [S ("r")] ≠ topicScore waterCycle [S ("r")] := by
  refine ⟨by decide, by decide, by decide⟩

/-- C2.  For every topic list, keyword list and cap `N`,
`find_matching_topics` returns at most `N` topics, their scores are
non-increasing, every returned topic has positive score, and the sort
underlying the result is stable: for every score value, the sorted list
restricted to that score equals the insertion-ordered scored list
restricted to that score. -/
theorem find_matching_topics_spec (topics : List CurriculumTopic)
    (kws : List Str) (N : Nat) :
    (find_matching_topics topics kws N).length ≤ N
    ∧ ((find_matching_topics topics kws N).map
        (fun t => topicScore t kws)).Pairwise (fun a b => b ≤ a)
    ∧ (∀ t ∈ find_matching_topics topics kws N, 0 < topicScore t kws)
    ∧ (∀ s : Nat,
        (sortDesc (scoredTopics topics kws)).filter (fun p => p.2 == s)
          = (scoredTopics topics kws).filter (fun p => p.2 == s)) := by
  refine ⟨?_, ?_, ?_, fun s => filter_sortDesc _ s⟩
  · simp only [find_matching_topics, List.length_map]
    exact le_trans (by simp [List.length_take]) (le_refl N)
  · have hmem : ∀ p ∈ (sortDesc (scoredTopics topics kws)).take N,
        p.2 = topicScore p.1 kws := by
      intro p hp
      have hp1 : p ∈ sortDesc (scoredTopics topics kws) :=
        List.mem_of_mem_take hp
      have hp2 : p ∈ scoredTopics topics kws :=
        (perm_sortDesc _).mem_iff.mp hp1
      exact (scoredTopics_mem hp2).1
    have hpair : ((sortDesc (scoredTopics topics kws)).take N).Pairwise
        (fun a b => b.2 ≤ a.2) :=
      (pairwise_sortDesc _).sublist (List.take_sublist _ _)
    have hmap : (find_matching_topics topics kws N).map
        (fun t => topicScore t kws)
        = ((sortDesc (scoredTopics topics kws)).take N).map Prod.snd := by
      simp only [find_matching_topics, List.map_map]
      exact List.map_congr_left fun p hp => (hmem p hp).symm
    rw [hmap]
    exact List.pairwise_map.mpr hpair
  · intro t ht
    simp only [find_matching_topics, List.mem_map] at ht
    obtain ⟨p, hp, rfl⟩ := ht
    have hp2 : p ∈ scoredTopics topics kws :=
      (perm_sortDesc _).mem_iff.mp (List.mem_of_mem_take hp)
    exact (scoredTopics_mem hp2).2

/-- C2 witness: on the two sample default topics with keyword `plant`
and cap 1, the single returned topic has positive score. -/
theorem find_matching_topics_spec_witness :
    0 < topicScore photosynthesis [S ("plant")] :=
  (find_matching_topics_spec [photosynthesis, waterCycle]
    [S ("plant")] 1).2.2.1 photosynthesis (by decide)


theorem fixOptions_length (opts : List Str) : (fixOptions opts).length = 4 := by
  unfold fixOptions
  split
  · simp only [List.length_take, List.length_append, List.length_replicate]
    omega
  · omega

theorem fixCorrect_bounds (i : Int) :
    0 ≤ fixCorrect i ∧ fixCorrect i ≤ 3 := by
  unfold fixCorrect
  split
  · exact ⟨le_refl 0, by omega⟩
  · omega

theorem parseOneQuestion_valid {raw : RawQuestion} {q : QuizQuestion}
    (h : parseOneQuestion raw = some q) : quizQuestionValid q = true := by
  obtain ⟨q?, o?, c?, e?⟩ := raw
  cases q? <;> cases o? <;> cases c? <;>
    simp only [parseOneQuestion, reduceCtorEq] at h
  cases h
  simp only [quizQuestionValid, Bool.and_eq_true, decide_eq_true_iff]
  exact ⟨⟨fixOptions_length _, (fixCorrect_bounds _).1⟩, (fixCorrect_bounds _).2⟩

theorem parse_quiz_response_valid (resp : Except Unit (List RawQuestion)) :
    ∀ q ∈ parse_quiz_response resp, quizQuestionValid q = true := by
  intro q hq
  cases resp with
  | error e =>
    simp only [parse_quiz_response, List.mem_singleton] at hq
    subst hq
    decide
  | ok qs =>
    simp only [parse_quiz_response] at hq
    obtain ⟨raw, -, hsome⟩ := List.mem_filterMap.mp hq
    exact parseOneQuestion_valid hsome

theorem take_of_one_le {α : Type} (a : α) {k : Nat} (h : 1 ≤ k) :
    List.take k [a] = [a] := by
  obtain ⟨k', rfl⟩ : ∃ k', k = k' + 1 := ⟨k - 1, by omega⟩
  simp

theorem generate_quiz_error (story : StoryResponseM) (n : Int) :
    generate_quiz story n (Except.error ()) =
      some { questions := [fallbackQuestion]
             story_id := story.story_id
             difficulty := lookupStrD DIFFICULTY_MAP story.age_group
               (S ("medium")) } := by
  have h2 : 1 ≤ (max 1 (min 5 n)).toNat := by omega
  simp only [generate_quiz, parse_quiz_response, take_of_one_le _ h2]
  rfl

/-- C3.  Every question produced by `_parse_quiz_response` has exactly
four options and a correct-answer index in `[0, 3]`; when JSON decoding
fails the parser substitutes exactly the fixed fallback question, which
is itself valid, and `generate_quiz` then still returns a
`QuizResponse` (with that single question) instead of failing; and every
`QuizResponse` the generator returns has between one and five questions,
all valid. -/
theorem quiz_bounds_and_fallback :
    (∀ (resp : Except Unit (List RawQuestion)) (q : QuizQuestion),
        q ∈ parse_quiz_response resp → quizQuestionValid q = true)
    ∧ parse_quiz_response (Except.error ()) = [fallbackQuestion]
    ∧ quizQuestionValid fallbackQuestion = true
    ∧ (∀ (story : StoryResponseM) (n : Int),
        ∃ qr, generate_quiz story n (Except.error ()) = some qr
          ∧ qr.questions = [fallbackQuestion])
    ∧ (∀ (story : StoryResponseM) (n : Int)
        (resp : Except Unit (List RawQuestion)) (qr : QuizResponseM),
        generate_quiz story n resp = some qr →
          1 ≤ qr.questions.length ∧ qr.questions.length ≤ 5
          ∧ ∀ q ∈ qr.questions, quizQuestionValid q = true) := by
  refine ⟨fun resp q hq => parse_quiz_response_valid resp q hq, rfl, by decide,
    ?_, ?_⟩
  · intro story n
    exact ⟨_, generate_quiz_error story n, rfl⟩
  · intro story n resp qr h
    simp only [generate_quiz] at h
    split at h
    · rename_i hvalid
      cases h
      simp only [quizResponseValid, Bool.and_eq_true, decide_eq_true_iff,
        List.all_eq_true] at hvalid
      exact ⟨hvalid.1.1, hvalid.1.2, hvalid.2⟩
    · cases h

/-- C3 witness: generating a quiz from the sample story with a
JSON-decoding failure yields a `QuizResponse` whose single question is
the fallback, within all bounds. -/
theorem quiz_bounds_and_fallback_witness :
    ∃ qr, generate_quiz sampleStory 3 (Except.error ()) = some qr
      ∧ qr.questions = [fallbackQuestion] :=
  quiz_bounds_and_fallback.2.2.2.1 sampleStory 3

/-- C7.  Whenever `generate_quiz` returns a `QuizResponse`, the requested
count was clamped to `[1, 5]`, the question list is exactly the parsed
list truncated to the clamped count, and when the parser produced at
most that many questions the list is the parser output unchanged (no
padding). -/
theorem generate_quiz_truncation (story : StoryResponseM) (n : Int)
    (resp : Except Unit (List RawQuestion)) (qr : QuizResponseM)
    (h : generate_quiz story n resp = some qr) :
    1 ≤ max 1 (min 5 n) ∧ max 1 (min 5 n) ≤ 5
    ∧ qr.questions = (parse_quiz_response resp).take (max 1 (min 5 n)).toNat
    ∧ ((parse_quiz_response resp).length ≤ (max 1 (min 5 n)).toNat →
        qr.questions = parse_quiz_response resp) := by
  refine ⟨le_max_left _ _, by omega, ?_⟩
  simp only [generate_quiz] at h
  split at h
  · cases h
    exact ⟨rfl, fun hle => List.take_of_length_le hle⟩
  · cases h

/-- C7 witness: requesting five questions while the vendor reply decodes
to a single complete question yields exactly that question list
unchanged, with no padding. -/
theorem generate_quiz_truncation_witness :
    { questions := parse_quiz_response (Except.ok [sampleRaw])
      story_id := sampleStory.story_id
      difficulty := S ("medium") : QuizResponseM }.questions
      = parse_quiz_response (Except.ok [sampleRaw]) :=
  (generate_quiz_truncation sampleStory 5 (Except.ok [sampleRaw])
    { questions := parse_quiz_response (Except.ok [sampleRaw])
      story_id := sampleStory.story_id
      difficulty := S ("medium") } (by rfl)).2.2.2 (by decide)

/-- C4.  Under `max_attempts = 3`, a wrapped function failing twice and
succeeding on the third attempt returns the success value after exactly
two sleeps; one failing on all three attempts makes the wrapper re-raise
the third (last) exception itself, after the same two sleeps. -/
theorem with_retry_behavior {E A : Type} (f : Nat → Except E A) (a : A)
    (e1 e2 e3 : E) :
    (f 1 = .error e1 → f 2 = .error e2 → f 3 = .ok a →
      with_retry 3 f = (.ok a, 2))
    ∧ (f 1 = .error e1 → f 2 = .error e2 → f 3 = .error e3 →
      with_retry 3 f = (.error e3, 2)) := by
  constructor <;> intro h1 h2 h3 <;>
    simp [with_retry, retryAux, h1, h2, h3]

/-- C4 witness: the sample attempts fail with errors 1 and 2 and succeed
with value 7 on attempt 3; the wrapper returns the success after two
sleeps. -/
theorem with_retry_behavior_witness :
    with_retry 3 retrySampleF = (.ok 7, 2) :=
  (with_retry_behavior retrySampleF 7 1 2 0).1 (by rfl) (by rfl) (by rfl)

/-- C5.  `process_keywords` short-circuits: when any curriculum topic
matches the split keywords, the result is built purely from the matched
topics (topic names as suggested topics, up to two learning objectives
per topic as educational concepts, confidence 0.9) and the AI vendor is
not called; when no topic matches, the AI vendor is called, and if that
call fails the fixed 0.5-confidence fallback echoing the input keywords
is returned. -/
theorem process_keywords_branching (kb : List CurriculumTopic)
    (keywords : Str) (ai : Except Unit ImageAnalysisResult) :
    ((find_matching_topics kb (splitKeywords keywords) 3).isEmpty = false →
      process_keywords kb keywords ai =
        ({ detected_objects := []
           scene_description := S ("Keywords: ") ++ keywords
           educational_concepts :=
             ((find_matching_topics kb (splitKeywords keywords) 3).map
               fun t => t.learning_objectives.take 2).flatten
           suggested_topics :=
             (find_matching_topics kb (splitKeywords keywords) 3).map
               fun t => t.name
           confidence := (9 : Rat) / 10 }, false))
    ∧ ((find_matching_topics kb (splitKeywords keywords) 3).isEmpty = true →
        (∀ r, ai = Except.ok r → process_keywords kb keywords ai = (r, true))
        ∧ (ai = Except.error () →
            process_keywords kb keywords ai = (keywordFallback keywords, true))) := by
  constructor
  · intro h
    simp [process_keywords, h]
  · intro h
    constructor
    · intro r hr
      subst hr
      simp [process_keywords, h]
    · intro hr
      subst hr
      simp [process_keywords, h]

/-- C5 witness: on the sample knowledge base the keyword string `plant`
matches the Photosynthesis topic, so the result is built from that topic
with confidence 0.9 and the AI vendor is not called, even though the
vendor outcome would have been an error. -/
theorem process_keywords_branching_witness :
    process_keywords [photosynthesis, waterCycle] (S ("plant"))
        (Except.error ()) =
      ({ detected_objects := []
         scene_description := S ("Keywords: ") ++ S ("plant")
         educational_concepts :=
           ((find_matching_topics [photosynthesis, waterCycle]
             (splitKeywords (S ("plant"))) 3).map
               fun t => t.learning_objectives.take 2).flatten
         suggested_topics :=
           (find_matching_topics [photosynthesis, waterCycle]
             (splitKeywords (S ("plant"))) 3).map fun t => t.name
         confidence := (9 : Rat) / 10 }, false) :=
  (process_keywords_branching [photosynthesis, waterCycle] (S ("plant"))
    (Except.error ())).1 (by decide)

theorem storyScanGo_fst_none (l : List Str) (i : Nat)
    (h : ∀ line ∈ l, inStr (S ("STORY:")) (upperStr line) = false) :
    (storyScanGo l i none).1 = none := by
  induction l generalizing i with
  | nil => rfl
  | cons line rest ih =>
    have h0 := h line (List.mem_cons_self line rest)
    simp only [storyScanGo, h0, Bool.false_eq_true, if_false,
      Option.isSome_none, Bool.and_false]
    exact ih (i + 1) fun x hx => h x (List.mem_cons_of_mem line hx)

theorem findMarkIdx_none (mark : Str) (l : List Str) (i : Nat)
    (h : ∀ line ∈ l, inStr mark (upperStr line) = false) :
    findMarkIdx mark l i = none := by
  induction l generalizing i with
  | nil => rfl
  | cons line rest ih =>
    have h0 := h line (List.mem_cons_self line rest)
    simp only [findMarkIdx, h0, Bool.false_eq_true, if_false]
    exact ih (i + 1) fun x hx => h x (List.mem_cons_of_mem line hx)

/-- C6.  If no line of the (stripped) vendor reply contains a
case-insensitive `STORY:` marker, the whole reply becomes the content;
if no line contains a case-insensitive `SUMMARY:` marker, the summary is
the first 50 whitespace tokens of the content joined by single spaces
with an ellipsis appended; a lowercase `title:` line is NOT matched (the
default title is used) even though lowercase `story:`/`summary:` lines
are, and a markdown heading is accepted as a title fallback. -/
theorem parse_story_markers (response : Str) :
    ((∀ line ∈ splitOn '\n' (stripStr response),
        inStr (S ("STORY:")) (upperStr line) = false) →
      (parse_story_response response).2.1 = response)
    ∧ ((∀ line ∈ splitOn '\n' (stripStr response),
        inStr (S ("SUMMARY:")) (upperStr line) = false) →
      (parse_story_response response).2.2 =
        List.intercalate (S (" "))
          ((splitWS (parse_story_response response).2.1).take 50) ++ S ("..."))
    ∧ (parse_story_response
        (S ("title: T\nSTORY:\nBody goes here\nSUMMARY:\nSum"))).1 =
        S ("An Amazing Adventure")
    ∧ parse_story_response (S ("TITLE: The Tale\nstory:\nBody\nsummary:\nSum"))
        = (S ("The Tale"), S ("Body"), S ("Sum"))
    ∧ (parse_story_response (S ("# My Title\nSTORY:\nX"))).1 = S ("My Title") := by
  refine ⟨?_, ?_, by decide, by decide, by decide⟩
  · intro h
    simp only [parse_story_response,
      storyScanGo_fst_none (splitOn '\n' (stripStr response)) 0 h]
  · intro h
    simp only [parse_story_response,
      findMarkIdx_none (S ("SUMMARY:")) (splitOn '\n' (stripStr response)) 0 h,
      List.isEmpty_nil, if_true]

/-- C6 witness: a reply with neither marker is returned whole as the
content, and its summary is synthesized from the content's first 50
whitespace tokens plus an ellipsis. -/
theorem parse_story_markers_witness :
    (parse_story_response (S ("Just a tale"))).2.1 = S ("Just a tale")
    ∧ (parse_story_response (S ("Just a tale"))).2.2 =
        List.intercalate (S (" "))
          ((splitWS (parse_story_response (S ("Just a tale"))).2.1).take 50)
          ++ S ("...") :=
  ⟨(parse_story_markers (S ("Just a tale"))).1 (by decide),
   (parse_story_markers (S ("Just a tale"))).2.1 (by decide)⟩

/-- C8, amended.  Every `StoryResponse` built by `generate_story` has
`word_count` equal to the number of whitespace tokens of its `content`;
the schema itself does not enforce this for hand-constructed values. -/
theorem generated_word_count (storyId : Str) (concepts : List Str)
    (ageGroup : Str) (aiReply : Str) :
    (generate_story storyId concepts ageGroup aiReply).word_count =
      (splitWS (generate_story storyId concepts ageGroup aiReply).content).length :=
  rfl

/-- C8 counterexample: a hand-constructed `StoryResponse` with content
`a b c` (three tokens) and `word_count = 99` passes the schema's
validation, so the claimed invariant fails for hand-constructed
values. -/
theorem word_count_not_enforced :
    storyResponseValid handMadeStory = true
    ∧ handMadeStory.word_count ≠ (splitWS handMadeStory.content).length := by
  refine ⟨rfl, by decide⟩

/-- C9.  The cleanup sweep deletes exactly the files whose age strictly
exceeds `max_age_hours * 3600` seconds, in scan order, and returns their
count; a file aged exactly at the threshold is kept, a strictly older
one is deleted. -/
theorem cleanup_strict_threshold (files : List (Str × Int)) (m : Int) :
    (cleanup_old_files files m).1 =
      (files.filter fun f => decide (m * 3600 < f.2)).length
    ∧ (cleanup_old_files files m).2 =
      (files.filter fun f => decide (m * 3600 < f.2)).map Prod.fst
    ∧ (∀ name : Str, cleanup_old_files [(name, m * 3600)] m = (0, []))
    ∧ (∀ (name : Str) (a : Int), m * 3600 < a →
        cleanup_old_files [(name, a)] m = (1, [name])) := by
  have key : ∀ fs : List (Str × Int), cleanup_old_files fs m =
      (((fs.filter fun f => decide (m * 3600 < f.2)).length),
        (fs.filter fun f => decide (m * 3600 < f.2)).map Prod.fst) := by
    intro fs
    induction fs with
    | nil => rfl
    | cons f rest ih =>
      simp only [cleanup_old_files, ih, List.filter_cons]
      by_cases hf : m * 3600 < f.2
      · simp [hf, gt_iff_lt]
      · simp [hf, gt_iff_lt]
  refine ⟨by rw [key], by rw [key], ?_, ?_⟩
  · intro name
    simp [cleanup_old_files, key]
  · intro name a ha
    simp [cleanup_old_files, key, ha]

/-- C9 witness: with a two-hour threshold, a file aged 7201 seconds
(strictly past the 7200-second threshold) is deleted and counted. -/
theorem cleanup_strict_threshold_witness :
    cleanup_old_files [(S ("a.mp3"), 7201)] 2 = (1, [S ("a.mp3")]) :=
  (cleanup_strict_threshold [(S ("a.mp3"), 7201)] 2).2.2.2
    (S ("a.mp3")) 7201 (by decide)

/-- C10.  With no explicit voice, the streaming path always selects the
general per-language voice (or the global default) and never the
child-friendly table, while the non-streaming path with the child-voice
preference enabled selects the child-friendly voice whenever the
language has one; for English the two paths therefore pick different
voices for the same text. -/
theorem stream_ignores_child_voices (lang dv : Str) :
    select_voice_stream none lang dv = lookupStrD VOICE_MAP lang dv
    ∧ (∀ cv : Str, lookupStr CHILD_VOICES lang = some cv →
        select_voice_generate_audio none lang true dv = cv)
    ∧ select_voice_stream none (S ("en")) (S ("en-US-AriaNeural"))
        ≠ select_voice_generate_audio none (S ("en")) true
            (S ("en-US-AriaNeural")) := by
  refine ⟨rfl, ?_, by decide⟩
  intro cv hcv
  simp [select_voice_generate_audio, voiceGiven, hcv]

/-- C10 witness: for French without an explicit voice, the non-streaming
path selects the child-friendly voice from the child table. -/
theorem stream_ignores_child_voices_witness :
    select_voice_generate_audio none (S ("fr")) true (S ("en-US-AriaNeural"))
      = S ("fr-FR-EloiseNeural") :=
  (stream_ignores_child_voices (S ("fr")) (S ("en-US-AriaNeural"))).2.1
    (S ("fr-FR-EloiseNeural")) (by decide)

end StoryTelling
